import Mathlib

/-!
Verification of the quotation calculator (src/app.py).

The pricing engine is a pure arithmetic transformation from a quote request
and a tariff table to per-mode line-item breakdowns and totals.  We embed the
engine shallowly: Python floats become exact rationals (ℚ), the Streamlit
widgets' integer inputs become ℕ, the mode multiselect becomes a list of
modes, and each derived quantity of the script becomes a Lean definition
carrying the same name.
-/

/-- The tariff table (`Tariff` dataclass, src/app.py lines 41-61), with the
default rate constants. -/
structure Tariff where
  custom_clearance : ℚ := 20000
  gate_mechanical : ℚ := 600
  gate_hydraulic : ℚ := 2000
  handling_option_1 : ℚ := 900
  handling_option_2 : ℚ := 1800
  lashing_charges : ℚ := 1100
  lashing_manpower_per_mafi : ℚ := 3000
  survey_per_mafi : ℚ := 2500
  tug_master_per_mafi : ℚ := 8800
  bbk_handling_per_cbm : ℚ := 175
  bbk_survey_lumpsum : ℚ := 2500
  bbk_port_permission : ℚ := 2500
  bbk_security_per_shift_person : ℚ := 850
deriving DecidableEq

/-- `TARIFF = Tariff()` (src/app.py line 64): the default tariff instance. -/
def TARIFF : Tariff := {}

/-- The two entries of the mode multiselect (src/app.py lines 86-90). -/
inductive Mode where
  | MAFI
  | BBK
deriving DecidableEq, Repr

/-- The two entries of the trailer-type selectbox (src/app.py lines 92-98). -/
inductive TrailerType where
  | Mechanical
  | Hydraulic
deriving DecidableEq, Repr

/-- The literal option strings of the trailer-type selectbox. -/
def trailerTypeLabel : TrailerType → String
  | .Mechanical => "Mechanical Trailer (<50 MT & <12 m)"
  | .Hydraulic => "Hydraulic Axle Trailer (>50 MT & >14 m)"

/-- The input aggregate: every widget value the pricing section of the script
reads (src/app.py lines 69-114).  The trailer and mafi counts and the security
persons/shifts are integer widgets, hence ℕ. -/
structure QuoteRequest where
  length : ℚ
  width : ℚ
  height : ℚ
  weight_mt : ℚ
  no_of_trailers : ℕ
  no_of_mafi : ℕ
  quote_modes : List Mode
  trailer_type : TrailerType
  include_custom_clearance : Bool
  bbk_security_persons : ℕ
  bbk_security_shifts : ℕ

/-- One row of a breakdown table: serial-number label, description, amount. -/
structure LineItem where
  sl : String
  description : String
  amount : ℚ
deriving DecidableEq

/-- Two-digit zero-padding used by `fmt2`. -/
def pad2 (n : ℤ) : String :=
  if n < 10 then "0" ++ toString n else toString n

/-- Rendering of a rational with two decimal places, standing for Python's
`f"{x:.2f}"` (used only inside display strings). -/
def fmt2 (q : ℚ) : String :=
  let n : ℤ := round (q * 100)
  let a : ℤ := |n|
  (if n < 0 then "-" else "") ++ toString (a / 100) ++ "." ++ pad2 (a % 100)

/-- `cbm = length * width * height` (src/app.py line 119). -/
def cbm (r : QuoteRequest) : ℚ :=
  r.length * r.width * r.height

/-- `custom_clearance = TARIFF.custom_clearance if include_custom_clearance
else 0` (src/app.py line 121). -/
def custom_clearance (t : Tariff) (r : QuoteRequest) : ℚ :=
  if r.include_custom_clearance then t.custom_clearance else 0

/-- Python's `str.startswith`, modelled on the character sequences of the
strings. -/
def startswith (s p : String) : Bool :=
  p.data.isPrefixOf s.data

/-- `gate_rate` selected by `trailer_type.startswith("Mechanical")`
(src/app.py lines 123-126). -/
def gate_rate (t : Tariff) (r : QuoteRequest) : ℚ :=
  if startswith (trailerTypeLabel r.trailer_type) "Mechanical" then
    t.gate_mechanical
  else
    t.gate_hydraulic

/-- `gate_charges = gate_rate * no_of_trailers` (src/app.py line 128). -/
def gate_charges (t : Tariff) (r : QuoteRequest) : ℚ :=
  gate_rate t r * r.no_of_trailers

/-- `handling_option1_charges` (src/app.py line 148). -/
def handling_option1_charges (t : Tariff) (r : QuoteRequest) : ℚ :=
  t.handling_option_1 * r.weight_mt

/-- `handling_option2_charges` (src/app.py line 149). -/
def handling_option2_charges (t : Tariff) (r : QuoteRequest) : ℚ :=
  t.handling_option_2 * r.weight_mt

/-- `lashing_charges = TARIFF.lashing_charges * weight_mt` (src/app.py
line 151). -/
def lashing_charges (t : Tariff) (r : QuoteRequest) : ℚ :=
  t.lashing_charges * r.weight_mt

/-- `lashing_manpower` (src/app.py line 152). -/
def lashing_manpower (t : Tariff) (r : QuoteRequest) : ℚ :=
  t.lashing_manpower_per_mafi * r.no_of_mafi

/-- `survey_charges` (src/app.py line 153). -/
def survey_charges (t : Tariff) (r : QuoteRequest) : ℚ :=
  t.survey_per_mafi * r.no_of_mafi

/-- `tug_master_charges` (src/app.py line 154). -/
def tug_master_charges (t : Tariff) (r : QuoteRequest) : ℚ :=
  t.tug_master_per_mafi * r.no_of_mafi

/-- `mafi_common_total` (src/app.py lines 156-163). -/
def mafi_common_total (t : Tariff) (r : QuoteRequest) : ℚ :=
  custom_clearance t r
    + gate_charges t r
    + lashing_charges t r
    + lashing_manpower t r
    + survey_charges t r
    + tug_master_charges t r

/-- `mafi_option1_total` (src/app.py line 165). -/
def mafi_option1_total (t : Tariff) (r : QuoteRequest) : ℚ :=
  mafi_common_total t r + handling_option1_charges t r

/-- `mafi_option2_total` (src/app.py line 166). -/
def mafi_option2_total (t : Tariff) (r : QuoteRequest) : ℚ :=
  mafi_common_total t r + handling_option2_charges t r

/-- `mafi_rows` (src/app.py lines 171-184): the custom-clearance row is
appended only when the flag is set, then the fixed rows follow. -/
def mafi_rows (t : Tariff) (r : QuoteRequest) : List LineItem :=
  (if r.include_custom_clearance then
    [⟨"1", "Custom clearance charges", custom_clearance t r⟩]
  else []) ++
  [⟨"2", "Cargo gate IN/OUT – " ++ trailerTypeLabel r.trailer_type,
      gate_charges t r⟩,
   ⟨"3A", "Option 1 – Direct Handling (Rs 900 / MT)",
      handling_option1_charges t r⟩,
   ⟨"3B", "Option 2 – Double Handling (Rs 1800 / MT)",
      handling_option2_charges t r⟩,
   ⟨"4", "Lashing charges (Rs 1100 / MT)", lashing_charges t r⟩,
   ⟨"5", "Lashing manpower (per Mafi x " ++ toString r.no_of_mafi ++ ")",
      lashing_manpower t r⟩,
   ⟨"6", "Survey (per Mafi x " ++ toString r.no_of_mafi ++ ")",
      survey_charges t r⟩,
   ⟨"7", "Tug master (per Mafi x " ++ toString r.no_of_mafi ++ ")",
      tug_master_charges t r⟩]

/-- `bbk_handling` (src/app.py line 210). -/
def bbk_handling (t : Tariff) (r : QuoteRequest) : ℚ :=
  t.bbk_handling_per_cbm * cbm r

/-- `bbk_survey` (src/app.py line 211). -/
def bbk_survey (t : Tariff) : ℚ :=
  t.bbk_survey_lumpsum

/-- `bbk_port_permission` (src/app.py line 212). -/
def bbk_port_permission (t : Tariff) : ℚ :=
  t.bbk_port_permission

/-- `bbk_security` (src/app.py lines 213-217). -/
def bbk_security (t : Tariff) (r : QuoteRequest) : ℚ :=
  t.bbk_security_per_shift_person * r.bbk_security_persons
    * r.bbk_security_shifts

/-- `bbk_total` (src/app.py lines 219-226). -/
def bbk_total (t : Tariff) (r : QuoteRequest) : ℚ :=
  custom_clearance t r
    + gate_charges t r
    + bbk_handling t r
    + bbk_survey t
    + bbk_port_permission t
    + bbk_security t r

/-- `bbk_rows` (src/app.py lines 231-242). -/
def bbk_rows (t : Tariff) (r : QuoteRequest) : List LineItem :=
  (if r.include_custom_clearance then
    [⟨"1", "Custom clearance charges", custom_clearance t r⟩]
  else []) ++
  [⟨"2", "Cargo gate IN/OUT – " ++ trailerTypeLabel r.trailer_type,
      gate_charges t r⟩,
   ⟨"3", "BBK handling (Rs 175 / CBM x " ++ fmt2 (cbm r) ++ ")",
      bbk_handling t r⟩,
   ⟨"4", "Survey charges (W/M – Lumpsum)", bbk_survey t⟩,
   ⟨"5", "Port permission charges (one time)", bbk_port_permission t⟩,
   ⟨"6", "Security charges (Rs 850 x " ++ toString r.bbk_security_persons
      ++ " persons x " ++ toString r.bbk_security_shifts ++ " shifts)",
      bbk_security t r⟩]

/-- The rendered MAFI section: its breakdown rows and its two quoted totals
(src/app.py lines 146-203). -/
structure MafiResult where
  rows : List LineItem
  option1_total : ℚ
  option2_total : ℚ
deriving DecidableEq

/-- The rendered BBK section: its breakdown rows and its quoted total
(src/app.py lines 208-252). -/
structure BbkResult where
  rows : List LineItem
  total : ℚ
deriving DecidableEq

/-- The whole output of one evaluation of the script: the MAFI section when
MAFI is selected, the BBK section when BBK is selected, and the no-mode
warning flag (src/app.py lines 146, 208, 257-258). -/
structure QuoteResult where
  mafi : Option MafiResult
  bbk : Option BbkResult
  warning : Bool
deriving DecidableEq

/-- The pricing engine: one full evaluation of the script's pricing sections
on a request, against a tariff table. -/
def computeQuote (t : Tariff) (r : QuoteRequest) : QuoteResult :=
  { mafi :=
      if Mode.MAFI ∈ r.quote_modes then
        some { rows := mafi_rows t r
               option1_total := mafi_option1_total t r
               option2_total := mafi_option2_total t r }
      else none
    bbk :=
      if Mode.BBK ∈ r.quote_modes then
        some { rows := bbk_rows t r
               total := bbk_total t r }
      else none
    warning := r.quote_modes.length == 0 }

/-- The worked example of the spec (section 8): length 12.5, width 4.0,
height 4.5, weight 30, one trailer, one mafi, both modes, mechanical
trailer, clearance included, one security person, one shift. -/
def exReq : QuoteRequest :=
  { length := 25 / 2
    width := 4
    height := 9 / 2
    weight_mt := 30
    no_of_trailers := 1
    no_of_mafi := 1
    quote_modes := [Mode.MAFI, Mode.BBK]
    trailer_type := .Mechanical
    include_custom_clearance := true
    bbk_security_persons := 1
    bbk_security_shifts := 1 }

/-- The trailer type the user would switch to. -/
def otherTrailer : TrailerType → TrailerType
  | .Mechanical => .Hydraulic
  | .Hydraulic => .Mechanical

/-- The mechanical selectbox label passes the `startswith "Mechanical"`
test. -/
theorem startswith_mech :
    startswith (trailerTypeLabel .Mechanical) "Mechanical" = true := by
  decide

/-- The hydraulic selectbox label fails the `startswith "Mechanical"`
test. -/
theorem startswith_hyd :
    startswith (trailerTypeLabel .Hydraulic) "Mechanical" = false := by
  decide

/-- The string test of the source selects the mechanical rate exactly for the
mechanical trailer label. -/
theorem gate_rate_eq (t : Tariff) (r : QuoteRequest) :
    gate_rate t r =
      match r.trailer_type with
      | .Mechanical => t.gate_mechanical
      | .Hydraulic => t.gate_hydraulic := by
  cases h : r.trailer_type <;>
    simp [gate_rate, h, startswith_mech, startswith_hyd]

example : cbm exReq = 225 := by norm_num [cbm, exReq]

example : mafi_option1_total TARIFF exReq = 94900 := by
  norm_num [mafi_option1_total, mafi_common_total, handling_option1_charges,
    custom_clearance, gate_charges, gate_rate_eq, lashing_charges,
    lashing_manpower, survey_charges, tug_master_charges, trailerTypeLabel,
    TARIFF, exReq]

example : mafi_option2_total TARIFF exReq = 121900 := by
  norm_num [mafi_option2_total, mafi_common_total, handling_option2_charges,
    custom_clearance, gate_charges, gate_rate_eq, lashing_charges,
    lashing_manpower, survey_charges, tug_master_charges, trailerTypeLabel,
    TARIFF, exReq]

example : bbk_total TARIFF exReq = 65825 := by
  norm_num [bbk_total, custom_clearance, gate_charges, gate_rate_eq,
    bbk_handling, bbk_survey, bbk_port_permission, bbk_security, cbm,
    trailerTypeLabel, TARIFF, exReq]

/-- C1: with MAFI selected, the MAFI common total is the sum of custom
clearance, gate charge, lashing (per MT), lashing manpower, survey and tug
master (per mafi), and each option total adds its handling charge. -/
theorem C1_mafi_totals (t : Tariff) (r : QuoteRequest)
    (h : Mode.MAFI ∈ r.quote_modes) :
    ∃ m, (computeQuote t r).mafi = some m ∧
      mafi_common_total t r =
        custom_clearance t r + gate_charges t r
          + t.lashing_charges * r.weight_mt
          + t.lashing_manpower_per_mafi * r.no_of_mafi
          + t.survey_per_mafi * r.no_of_mafi
          + t.tug_master_per_mafi * r.no_of_mafi ∧
      m.option1_total =
        mafi_common_total t r + t.handling_option_1 * r.weight_mt ∧
      m.option2_total =
        mafi_common_total t r + t.handling_option_2 * r.weight_mt := by
  refine ⟨⟨mafi_rows t r, mafi_option1_total t r, mafi_option2_total t r⟩,
    ?_, ?_, ?_, ?_⟩
  · simp [computeQuote, h]
  · simp [mafi_common_total, lashing_charges, lashing_manpower,
      survey_charges, tug_master_charges]
  · simp [mafi_option1_total, handling_option1_charges]
  · simp [mafi_option2_total, handling_option2_charges]

/-- C1 witness: the spec's worked example request. -/
theorem C1_mafi_totals_witness :
    Mode.MAFI ∈ exReq.quote_modes ∧
    (∃ m, (computeQuote TARIFF exReq).mafi = some m ∧
      mafi_common_total TARIFF exReq =
        custom_clearance TARIFF exReq + gate_charges TARIFF exReq
          + TARIFF.lashing_charges * exReq.weight_mt
          + TARIFF.lashing_manpower_per_mafi * exReq.no_of_mafi
          + TARIFF.survey_per_mafi * exReq.no_of_mafi
          + TARIFF.tug_master_per_mafi * exReq.no_of_mafi ∧
      m.option1_total =
        mafi_common_total TARIFF exReq
          + TARIFF.handling_option_1 * exReq.weight_mt ∧
      m.option2_total =
        mafi_common_total TARIFF exReq
          + TARIFF.handling_option_2 * exReq.weight_mt) :=
  ⟨by decide, C1_mafi_totals TARIFF exReq (by decide)⟩

/-- C2: with BBK selected, the BBK total is the sum of custom clearance, gate
charge, handling per CBM, survey lumpsum, port permission and security per
shift-person, with volume exactly length * width * height. -/
theorem C2_bbk_total (t : Tariff) (r : QuoteRequest)
    (h : Mode.BBK ∈ r.quote_modes) :
    cbm r = r.length * r.width * r.height ∧
    ∃ b, (computeQuote t r).bbk = some b ∧
      b.total =
        custom_clearance t r + gate_charges t r
          + t.bbk_handling_per_cbm * (r.length * r.width * r.height)
          + t.bbk_survey_lumpsum + t.bbk_port_permission
          + t.bbk_security_per_shift_person * r.bbk_security_persons
              * r.bbk_security_shifts := by
  refine ⟨rfl, ⟨bbk_rows t r, bbk_total t r⟩, ?_, ?_⟩
  · simp [computeQuote, h]
  · simp [bbk_total, bbk_handling, bbk_survey, bbk_port_permission,
      bbk_security, cbm]

/-- C2 witness: the spec's worked example request. -/
theorem C2_bbk_total_witness :
    Mode.BBK ∈ exReq.quote_modes ∧
    (cbm exReq = exReq.length * exReq.width * exReq.height ∧
    ∃ b, (computeQuote TARIFF exReq).bbk = some b ∧
      b.total =
        custom_clearance TARIFF exReq + gate_charges TARIFF exReq
          + TARIFF.bbk_handling_per_cbm
              * (exReq.length * exReq.width * exReq.height)
          + TARIFF.bbk_survey_lumpsum + TARIFF.bbk_port_permission
          + TARIFF.bbk_security_per_shift_person * exReq.bbk_security_persons
              * exReq.bbk_security_shifts) :=
  ⟨by decide, C2_bbk_total TARIFF exReq (by decide)⟩

/-- C5: the difference of the two MAFI option totals is exactly the
difference of the two handling charges. -/
theorem C5_option_difference (t : Tariff) (r : QuoteRequest) :
    mafi_option1_total t r - mafi_option2_total t r =
      t.handling_option_1 * r.weight_mt
        - t.handling_option_2 * r.weight_mt := by
  simp only [mafi_option1_total, mafi_option2_total,
    handling_option1_charges, handling_option2_charges]
  ring

/-- C7: the gate charge is the rate selected by the trailer type times the
trailer count, and flipping only the trailer type leaves every other charge
of both modes unchanged. -/
theorem C7_gate_charge (t : Tariff) (r : QuoteRequest) :
    gate_charges t r =
      (match r.trailer_type with
        | .Mechanical => t.gate_mechanical
        | .Hydraulic => t.gate_hydraulic) * r.no_of_trailers ∧
    custom_clearance t { r with trailer_type := otherTrailer r.trailer_type }
      = custom_clearance t r ∧
    handling_option1_charges t
        { r with trailer_type := otherTrailer r.trailer_type }
      = handling_option1_charges t r ∧
    handling_option2_charges t
        { r with trailer_type := otherTrailer r.trailer_type }
      = handling_option2_charges t r ∧
    lashing_charges t { r with trailer_type := otherTrailer r.trailer_type }
      = lashing_charges t r ∧
    lashing_manpower t { r with trailer_type := otherTrailer r.trailer_type }
      = lashing_manpower t r ∧
    survey_charges t { r with trailer_type := otherTrailer r.trailer_type }
      = survey_charges t r ∧
    tug_master_charges t { r with trailer_type := otherTrailer r.trailer_type }
      = tug_master_charges t r ∧
    bbk_handling t { r with trailer_type := otherTrailer r.trailer_type }
      = bbk_handling t r ∧
    bbk_security t { r with trailer_type := otherTrailer r.trailer_type }
      = bbk_security t r := by
  refine ⟨?_, ?_, ?_, ?_, ?_, ?_, ?_, ?_, ?_, ?_⟩
  · rw [gate_charges, gate_rate_eq]
  all_goals
    simp [custom_clearance, handling_option1_charges,
      handling_option2_charges, lashing_charges, lashing_manpower,
      survey_charges, tug_master_charges, bbk_handling, bbk_security, cbm]

/-- C3 counterexample: on the spec's worked example with MAFI selected,
neither MAFI option total equals the sum of all listed MAFI line items,
because the breakdown lists both handling-option rows while each total adds
only one of them. -/
theorem C3_counterexample :
    Mode.MAFI ∈ exReq.quote_modes ∧
    mafi_option1_total TARIFF exReq ≠
      ((mafi_rows TARIFF exReq).map LineItem.amount).sum ∧
    mafi_option2_total TARIFF exReq ≠
      ((mafi_rows TARIFF exReq).map LineItem.amount).sum := by
  refine ⟨by decide, ?_, ?_⟩ <;>
    norm_num [mafi_rows, mafi_option1_total, mafi_option2_total,
      mafi_common_total, custom_clearance, gate_charges, gate_rate_eq,
      handling_option1_charges, handling_option2_charges, lashing_charges,
      lashing_manpower, survey_charges, tug_master_charges, TARIFF, exReq]

/-- C3 amended: the BBK total equals the exact sum of the BBK line items; a
MAFI option total equals the exact sum of the MAFI line items once the other
option's informational handling row is excluded. -/
theorem C3_amended_totals_eq_rows (t : Tariff) (r : QuoteRequest) :
    ((bbk_rows t r).map LineItem.amount).sum = bbk_total t r ∧
    (((mafi_rows t r).filter (fun li => li.sl ≠ "3B")).map
        LineItem.amount).sum = mafi_option1_total t r ∧
    (((mafi_rows t r).filter (fun li => li.sl ≠ "3A")).map
        LineItem.amount).sum = mafi_option2_total t r := by
  refine ⟨?_, ?_, ?_⟩ <;>
    cases h : r.include_custom_clearance <;>
      simp +decide [mafi_rows, bbk_rows, h, bbk_total, custom_clearance,
        mafi_option1_total, mafi_option2_total, mafi_common_total] <;>
      ring

/-- C4: the sum of the MAFI line items other than the two informational
handling rows 3A and 3B, plus the chosen option's handling charge, equals
that option's total. -/
theorem C4_mafi_rows_sum (t : Tariff) (r : QuoteRequest) :
    (((mafi_rows t r).filter
        (fun li => li.sl ≠ "3A" ∧ li.sl ≠ "3B")).map
        LineItem.amount).sum + handling_option1_charges t r =
      mafi_option1_total t r ∧
    (((mafi_rows t r).filter
        (fun li => li.sl ≠ "3A" ∧ li.sl ≠ "3B")).map
        LineItem.amount).sum + handling_option2_charges t r =
      mafi_option2_total t r := by
  refine ⟨?_, ?_⟩ <;>
    cases h : r.include_custom_clearance <;>
      simp +decide [mafi_rows, h, custom_clearance, mafi_option1_total,
        mafi_option2_total, mafi_common_total] <;>
      ring

/-- C6: turning `include_custom_clearance` from true to false removes exactly
the custom-clearance row (labelled "1", present only when the flag is set)
from both breakdowns, leaves every other line item unchanged, and lowers
every total of both modes by exactly `tariff.custom_clearance`. -/
theorem C6_custom_clearance_toggle (t : Tariff) (r : QuoteRequest) :
    mafi_rows t { r with include_custom_clearance := true } =
      ⟨"1", "Custom clearance charges", t.custom_clearance⟩ ::
        mafi_rows t { r with include_custom_clearance := false } ∧
    bbk_rows t { r with include_custom_clearance := true } =
      ⟨"1", "Custom clearance charges", t.custom_clearance⟩ ::
        bbk_rows t { r with include_custom_clearance := false } ∧
    "1" ∉ (mafi_rows t
        { r with include_custom_clearance := false }).map LineItem.sl ∧
    "1" ∉ (bbk_rows t
        { r with include_custom_clearance := false }).map LineItem.sl ∧
    mafi_option1_total t { r with include_custom_clearance := true } =
      mafi_option1_total t { r with include_custom_clearance := false }
        + t.custom_clearance ∧
    mafi_option2_total t { r with include_custom_clearance := true } =
      mafi_option2_total t { r with include_custom_clearance := false }
        + t.custom_clearance ∧
    bbk_total t { r with include_custom_clearance := true } =
      bbk_total t { r with include_custom_clearance := false }
        + t.custom_clearance := by
  refine ⟨?_, ?_, ?_, ?_, ?_, ?_, ?_⟩ <;>
    simp +decide [mafi_rows, bbk_rows, custom_clearance, gate_charges,
      gate_rate, handling_option1_charges, handling_option2_charges,
      lashing_charges, lashing_manpower, survey_charges, tug_master_charges,
      bbk_handling, bbk_survey, bbk_port_permission, bbk_security, cbm,
      mafi_option1_total, mafi_option2_total, mafi_common_total,
      bbk_total] <;>
    ring

/-- C8: with no mode selected, the engine result has no MAFI section, no BBK
section, and the no-mode warning set. -/
theorem C8_no_mode (t : Tariff) (r : QuoteRequest)
    (h : r.quote_modes = []) :
    computeQuote t r = { mafi := none, bbk := none, warning := true } := by
  simp [computeQuote, h]

/-- C8 witness: the worked example request with every mode deselected. -/
theorem C8_no_mode_witness :
    ({ exReq with quote_modes := [] } : QuoteRequest).quote_modes = [] ∧
    computeQuote TARIFF { exReq with quote_modes := [] } =
      { mafi := none, bbk := none, warning := true } :=
  ⟨rfl, C8_no_mode TARIFF { exReq with quote_modes := [] } rfl⟩

/-- C9: with non-negative dimensions and weight (the integer widgets make the
counts, persons and shifts non-negative by type), every line-item amount and
every total of both modes under the default tariff is non-negative. -/
theorem C9_nonneg (r : QuoteRequest)
    (hl : 0 ≤ r.length) (hw : 0 ≤ r.width) (hh : 0 ≤ r.height)
    (hwt : 0 ≤ r.weight_mt) :
    (∀ li ∈ mafi_rows TARIFF r, 0 ≤ li.amount) ∧
    (∀ li ∈ bbk_rows TARIFF r, 0 ≤ li.amount) ∧
    0 ≤ mafi_common_total TARIFF r ∧
    0 ≤ mafi_option1_total TARIFF r ∧
    0 ≤ mafi_option2_total TARIFF r ∧
    0 ≤ bbk_total TARIFF r := by
  have hcc : 0 ≤ custom_clearance TARIFF r := by
    rw [custom_clearance]; split <;> norm_num [TARIFF]
  have hgate : 0 ≤ gate_charges TARIFF r := by
    rw [gate_charges, gate_rate_eq]
    cases r.trailer_type <;>
      exact mul_nonneg (by norm_num [TARIFF]) (Nat.cast_nonneg _)
  have hh1 : 0 ≤ handling_option1_charges TARIFF r := by
    rw [handling_option1_charges]
    exact mul_nonneg (by norm_num [TARIFF]) hwt
  have hh2 : 0 ≤ handling_option2_charges TARIFF r := by
    rw [handling_option2_charges]
    exact mul_nonneg (by norm_num [TARIFF]) hwt
  have hlash : 0 ≤ lashing_charges TARIFF r := by
    rw [lashing_charges]
    exact mul_nonneg (by norm_num [TARIFF]) hwt
  have hman : 0 ≤ lashing_manpower TARIFF r := by
    rw [lashing_manpower]
    exact mul_nonneg (by norm_num [TARIFF]) (Nat.cast_nonneg _)
  have hsur : 0 ≤ survey_charges TARIFF r := by
    rw [survey_charges]
    exact mul_nonneg (by norm_num [TARIFF]) (Nat.cast_nonneg _)
  have htug : 0 ≤ tug_master_charges TARIFF r := by
    rw [tug_master_charges]
    exact mul_nonneg (by norm_num [TARIFF]) (Nat.cast_nonneg _)
  have hbh : 0 ≤ bbk_handling TARIFF r := by
    rw [bbk_handling, cbm]
    exact mul_nonneg (by norm_num [TARIFF]) (mul_nonneg (mul_nonneg hl hw) hh)
  have hbs : 0 ≤ bbk_survey TARIFF := by norm_num [bbk_survey, TARIFF]
  have hbp : 0 ≤ bbk_port_permission TARIFF := by
    norm_num [bbk_port_permission, TARIFF]
  have hbsec : 0 ≤ bbk_security TARIFF r := by
    rw [bbk_security]
    exact mul_nonneg
      (mul_nonneg (by norm_num [TARIFF]) (Nat.cast_nonneg _))
      (Nat.cast_nonneg _)
  have hcommon : 0 ≤ mafi_common_total TARIFF r := by
    rw [mafi_common_total]
    repeat apply add_nonneg
    all_goals assumption
  refine ⟨?_, ?_, hcommon, ?_, ?_, ?_⟩
  · intro li hli
    by_cases hic : r.include_custom_clearance
    · simp [mafi_rows, hic] at hli
      rcases hli with h | h | h | h | h | h | h | h <;> subst h <;>
        first
          | exact hcc
          | exact hgate
          | exact hh1
          | exact hh2
          | exact hlash
          | exact hman
          | exact hsur
          | exact htug
    · simp [mafi_rows, hic] at hli
      rcases hli with h | h | h | h | h | h | h <;> subst h <;>
        first
          | exact hgate
          | exact hh1
          | exact hh2
          | exact hlash
          | exact hman
          | exact hsur
          | exact htug
  · intro li hli
    by_cases hic : r.include_custom_clearance
    · simp [bbk_rows, hic] at hli
      rcases hli with h | h | h | h | h | h <;> subst h <;>
        first
          | exact hcc
          | exact hgate
          | exact hbh
          | exact hbs
          | exact hbp
          | exact hbsec
    · simp [bbk_rows, hic] at hli
      rcases hli with h | h | h | h | h <;> subst h <;>
        first
          | exact hgate
          | exact hbh
          | exact hbs
          | exact hbp
          | exact hbsec
  · rw [mafi_option1_total]; exact add_nonneg hcommon hh1
  · rw [mafi_option2_total]; exact add_nonneg hcommon hh2
  · rw [bbk_total]
    repeat apply add_nonneg
    all_goals assumption

/-- C9 witness: the spec's worked example request. -/
theorem C9_nonneg_witness :
    (0 ≤ exReq.length ∧ 0 ≤ exReq.width ∧ 0 ≤ exReq.height ∧
      0 ≤ exReq.weight_mt) ∧
    ((∀ li ∈ mafi_rows TARIFF exReq, 0 ≤ li.amount) ∧
     (∀ li ∈ bbk_rows TARIFF exReq, 0 ≤ li.amount) ∧
     0 ≤ mafi_common_total TARIFF exReq ∧
     0 ≤ mafi_option1_total TARIFF exReq ∧
     0 ≤ mafi_option2_total TARIFF exReq ∧
     0 ≤ bbk_total TARIFF exReq) :=
  ⟨⟨by norm_num [exReq], by norm_num [exReq], by norm_num [exReq],
      by norm_num [exReq]⟩,
    C9_nonneg exReq (by norm_num [exReq]) (by norm_num [exReq])
      (by norm_num [exReq]) (by norm_num [exReq])⟩

/-- C10: with the custom-clearance flag off, the MAFI breakdown's labels are
exactly "2", "3A", "3B", "4", "5", "6", "7" and the BBK breakdown's labels
exactly "2", "3", "4", "5", "6" — each starts at "2" with no "1" row, never
renumbered — and with the flag on the handling rows still carry "3A" and
"3B". -/
theorem C10_labels (t : Tariff) (r : QuoteRequest)
    (h : r.include_custom_clearance = false) :
    (mafi_rows t r).map LineItem.sl = ["2", "3A", "3B", "4", "5", "6", "7"] ∧
    (bbk_rows t r).map LineItem.sl = ["2", "3", "4", "5", "6"] ∧
    "3A" ∈ (mafi_rows t
        { r with include_custom_clearance := true }).map LineItem.sl ∧
    "3B" ∈ (mafi_rows t
        { r with include_custom_clearance := true }).map LineItem.sl := by
  refine ⟨?_, ?_, ?_, ?_⟩ <;> simp [mafi_rows, bbk_rows, h]

/-- C10 witness: the worked example request with the flag off. -/
theorem C10_labels_witness :
    ({ exReq with include_custom_clearance := false } :
        QuoteRequest).include_custom_clearance = false ∧
    ((mafi_rows TARIFF { exReq with include_custom_clearance := false }).map
        LineItem.sl = ["2", "3A", "3B", "4", "5", "6", "7"] ∧
     (bbk_rows TARIFF { exReq with include_custom_clearance := false }).map
        LineItem.sl = ["2", "3", "4", "5", "6"] ∧
     "3A" ∈ (mafi_rows TARIFF
        { { exReq with include_custom_clearance := false } with
            include_custom_clearance := true }).map LineItem.sl ∧
     "3B" ∈ (mafi_rows TARIFF
        { { exReq with include_custom_clearance := false } with
            include_custom_clearance := true }).map LineItem.sl) :=
  ⟨rfl, C10_labels TARIFF { exReq with include_custom_clearance := false }
    rfl⟩
